import Mathlib

/-!
# Verification of the vehicle-backend Bloom-filter service

Shallow embedding of `src/app/main.py` (a FastAPI service that builds a
Bloom filter over vehicle numbers stored in MongoDB at startup and answers
membership queries), together with the probabilistic-membership-filter core
described by the specification.  The filter implementation itself is the
third-party `pybloom_live` library, whose source is not part of this
repository; following the specification, the filter core (hash scheme,
sizing mathematics, bit array, insert/contains/build) is modelled from the
spec's own design.  The service-level behaviour (`lifespan`, the sample-data
seeding, `check_vehicle`) is translated directly from `src/app/main.py`.
-/

namespace VehicleBloom

/-- A record is an opaque byte string (spec §3: "an opaque byte-string
identifier"); bytes are modelled as naturals. -/
abbrev Record := List Nat

/-- Modelled from the spec: first base hash `h1` of the double-hashing
scheme (spec §4.1 leaves the two base hash functions unspecified beyond
being deterministic and total over all byte strings; a concrete polynomial
hash over the bytes is used). -/
def h1 (r : Record) : Nat :=
  r.foldl (fun a b => a * 31 + b) 7

/-- Modelled from the spec: second base hash `h2` of the double-hashing
scheme, a second deterministic polynomial hash over the bytes. -/
def h2 (r : Record) : Nat :=
  r.foldl (fun a b => a * 37 + b) 11

/-- Modelled from the spec (§4.1): `positions(record, k, m)`, the `k` bit
positions in `[0, m)` obtained by the recommended double-hashing
construction `(h1 + i*h2) mod m` for `i` in `[0, k)`. -/
def positions (r : Record) (k m : Nat) : List Nat :=
  (List.range k).map fun i => (h1 r + i * h2 r) % m

/-- Modelled from the spec (§3 FilterState): the bit array of `m` bits, the
probe count `k`, and the array size `m`. -/
structure FilterState where
  m : Nat
  k : Nat
  bits : List Bool
deriving DecidableEq, Repr

/-- Set bit `i` of a bit array to 1 (out-of-range indices are a no-op,
matching a fixed-size array of `m` bits). -/
def setBit (bits : List Bool) (i : Nat) : List Bool :=
  bits.set i true

/-- Modelled from the spec (§4.2 `insert`): compute the `k` positions via
the hash scheme and set each to 1.  Total: no capacity ceiling. -/
def insert (s : FilterState) (r : Record) : FilterState :=
  ⟨s.m, s.k, (positions r s.k s.m).foldl setBit s.bits⟩

/-- Modelled from the spec (§4.2 `contains`): true iff all `k` positions
are set. -/
def contains (s : FilterState) (r : Record) : Bool :=
  (positions r s.k s.m).all fun i => s.bits.getD i false

/-- Modelled from the spec (§3): `m = ceil(-(n * ln p) / (ln 2)^2)`. -/
noncomputable def mSize (n : Nat) (p : ℝ) : ℤ :=
  ⌈-((n : ℝ) * Real.log p) / (Real.log 2) ^ 2⌉

/-- Modelled from the spec (§3): `k = round((m / n) * ln 2)`, where `m` is
the already-computed bit-array size. -/
noncomputable def kSize (n : Nat) (p : ℝ) : ℤ :=
  round (((mSize n p : ℝ) / (n : ℝ)) * Real.log 2)

/-- Modelled from the spec (§4.2 `new`): computes `m`, `k` per the sizing
formulas and allocates an all-zero bit array of size `m`.  (The
`InvalidParameters` guard of the spec is not modelled: every construction
performed by the program uses the valid parameters `n = 1000`,
`p = 0.1`.) -/
noncomputable def new (n : Nat) (p : ℝ) : FilterState :=
  ⟨(mSize n p).toNat, (kSize n p).toNat, List.replicate (mSize n p).toNat false⟩

/-- Modelled from the spec (§4.2 `build`): insert every record of the
sequence, in order, starting from a given state. -/
def buildFrom (s : FilterState) (rs : List Record) : FilterState :=
  rs.foldl insert s

/-- UTF-8 encoding of a vehicle-number string, as performed by
`vehicle_number.encode('utf-8')` / `vehicle.vehicle_to_check.encode('utf-8')`
in `src/app/main.py`; modelled as the list of code points (the plate
alphabet is ASCII, where the two coincide). -/
def encodeUtf8 (v : String) : Record :=
  v.data.map Char.toNat

/-- The alphabet used by the sample-vehicle generator of `lifespan`
(`random.choice('ABCDEFGHIJKLMNOPQRSTUVWXYZ')` in `src/app/main.py`). -/
def letters : List Char :=
  "ABCDEFGHIJKLMNOPQRSTUVWXYZ".data

/-- The digit alphabet of the sample-vehicle generator
(`random.choice('123456789')` in `src/app/main.py`). -/
def digits19 : List Char :=
  "123456789".data

/-- `random.choice(xs)` from `src/app/main.py`, with the process's random
stream modelled as a function `draw` from call index to drawn natural. -/
def choice (draw : Nat → Nat) (idx : Nat) (xs : List Char) : Char :=
  xs.getD (draw idx % xs.length) 'A'

/-- One sample vehicle number generated by the seeding block of `lifespan`
(`src/app/main.py` lines 46-51): the plate string
`LL-dd-LL-nnnn` built from six `random.choice` draws and one
`random.randint(1000, 9999)`, consuming draws `base..base+6` of the
process's random stream, encoded to bytes. -/
def sampleVehicle (draw : Nat → Nat) (base : Nat) : Record :=
  encodeUtf8 (String.mk
    [choice draw base letters, choice draw (base + 1) letters, '-',
     choice draw (base + 2) digits19, choice draw (base + 3) digits19, '-',
     choice draw (base + 4) letters, choice draw (base + 5) letters, '-']
    ++ toString (1000 + draw (base + 6) % 9000))

/-- The 1000 sample vehicles inserted by `collection.insert_many(vehicles)`
in `lifespan` when the MongoDB collection is empty (`src/app/main.py`
lines 44-53). -/
def sampleVehicles (draw : Nat → Nat) : List Record :=
  (List.range 1000).map fun i => sampleVehicle draw (7 * i)

/-- The contents of the MongoDB collection after the `lifespan` startup
handler has run, as a function of the process's random stream and of the
collection's prior contents: if `collection.count_documents({}) == 0` the
handler seeds 1000 sample vehicles via `collection.insert_many`, otherwise
it leaves the collection untouched (`src/app/main.py` lines 44-53). -/
def lifespanStore (draw : Nat → Nat) (store : List Record) : List Record :=
  if store.length = 0 then sampleVehicles draw else store

/-- The Bloom filter published in `app.state.bloom` by `lifespan`
(`src/app/main.py` lines 40-62): a filter constructed with
`capacity=1000, error_rate=0.1`, into which every `vehicle_number` returned
by `collection.find()` (after possible seeding) is inserted. -/
noncomputable def lifespanBloom (draw : Nat → Nat) (store : List Record) : FilterState :=
  buildFrom (new 1000 (1 / 10)) (lifespanStore draw store)

/-- The JSON body returned by the `/api/check_vehicle/` endpoint. -/
structure CheckResponse where
  vehicle_to_check : String
  status : String
deriving DecidableEq, Repr

/-- `check_vehicle` from `src/app/main.py` (lines 81-88): encode the
request's `vehicle_to_check`, test membership in the published filter, and
answer status `"yes"` or `"no"`. -/
def check_vehicle (bloom : FilterState) (v : String) : CheckResponse :=
  if contains bloom (encodeUtf8 v) then ⟨v, "yes"⟩ else ⟨v, "no"⟩

end VehicleBloom

namespace VehicleBloom

lemma length_foldl_setBit (ps : List Nat) (b : List Bool) :
    (ps.foldl setBit b).length = b.length := by
  induction ps generalizing b with
  | nil => rfl
  | cons i tl ih => simp [setBit, ih, List.length_set]

lemma getElem?_foldl_setBit (ps : List Nat) (b : List Bool) (j : Nat) :
    (ps.foldl setBit b)[j]? = b[j]?.map fun v => v || decide (j ∈ ps) := by
  induction ps generalizing b with
  | nil => simp
  | cons i tl ih =>
    simp only [List.foldl_cons, ih, setBit, List.getElem?_set, List.length_set, List.mem_cons]
    by_cases hij : i = j
    · subst hij
      by_cases hlt : i < b.length
      · simp [hlt, List.getElem?_eq_getElem hlt]
      · simp [hlt, List.getElem?_eq_none (le_of_not_lt hlt)]
    · have hji : ¬ (j = i) := fun h => hij h.symm
      simp [hij, hji]

end VehicleBloom

namespace VehicleBloom

lemma m_insert (s : FilterState) (r : Record) : (insert s r).m = s.m := rfl

lemma k_insert (s : FilterState) (r : Record) : (insert s r).k = s.k := rfl

lemma getElem?_insert (s : FilterState) (r : Record) (j : Nat) :
    (insert s r).bits[j]? = s.bits[j]?.map fun v => v || decide (j ∈ positions r s.k s.m) :=
  getElem?_foldl_setBit _ _ _

lemma m_buildFrom (s : FilterState) (rs : List Record) : (buildFrom s rs).m = s.m := by
  induction rs generalizing s with
  | nil => rfl
  | cons r tl ih => exact (ih (insert s r)).trans rfl

lemma k_buildFrom (s : FilterState) (rs : List Record) : (buildFrom s rs).k = s.k := by
  induction rs generalizing s with
  | nil => rfl
  | cons r tl ih => exact (ih (insert s r)).trans rfl

lemma length_buildFrom (s : FilterState) (rs : List Record) :
    (buildFrom s rs).bits.length = s.bits.length := by
  induction rs generalizing s with
  | nil => rfl
  | cons r tl ih =>
    exact (ih (insert s r)).trans (length_foldl_setBit _ _)

lemma getElem?_buildFrom (s : FilterState) (rs : List Record) (j : Nat) :
    (buildFrom s rs).bits[j]? =
      s.bits[j]?.map fun v => v || rs.any fun r => decide (j ∈ positions r s.k s.m) := by
  induction rs generalizing s with
  | nil =>
    simp [buildFrom]
  | cons r tl ih =>
    show (buildFrom (insert s r) tl).bits[j]? = _
    rw [ih, k_insert, m_insert, getElem?_insert, Option.map_map]
    cases s.bits[j]? with
    | none => rfl
    | some v => simp [Function.comp, Bool.or_assoc]

end VehicleBloom

namespace VehicleBloom

lemma mem_positions_lt {i : Nat} {r : Record} {k m : Nat} (hm : 0 < m)
    (hi : i ∈ positions r k m) : i < m := by
  simp only [positions, List.mem_map] at hi
  obtain ⟨t, _, rfl⟩ := hi
  exact Nat.mod_lt _ hm

lemma contains_buildFrom_of_mem (s : FilterState) (hlen : s.bits.length = s.m)
    (hm : 0 < s.m) {rs : List Record} {r : Record} (hr : r ∈ rs) :
    contains (buildFrom s rs) r = true := by
  unfold contains
  rw [List.all_eq_true]
  intro i hi
  rw [k_buildFrom, m_buildFrom] at hi
  have hil : i < s.bits.length := hlen ▸ mem_positions_lt hm hi
  rw [List.getD_eq_getElem?_getD, getElem?_buildFrom, List.getElem?_eq_getElem hil]
  have hany : rs.any (fun r' => decide (i ∈ positions r' s.k s.m)) = true :=
    List.any_eq_true.mpr ⟨r, hr, by simpa using hi⟩
  simp [hany]

end VehicleBloom

namespace VehicleBloom

lemma log_ratio_bounds :
    3 / 128 ≤ Real.log (1024 / 1000) ∧ Real.log (1024 / 1000) ≤ 3 / 125 := by
  constructor
  · have h := Real.log_le_sub_one_of_pos (show (0:ℝ) < 1000 / 1024 by norm_num)
    have hdiv : Real.log ((1000 : ℝ) / 1024) = -Real.log (1024 / 1000) := by
      rw [show (1000 : ℝ) / 1024 = ((1024 : ℝ) / 1000)⁻¹ by norm_num, Real.log_inv]
    rw [hdiv] at h
    linarith
  · have h := Real.log_le_sub_one_of_pos (show (0:ℝ) < 1024 / 1000 by norm_num)
    linarith

lemma log_ten_bounds :
    (10 * Real.log 2 - 3 / 125) / 3 ≤ Real.log 10 ∧
      Real.log 10 ≤ (10 * Real.log 2 - 3 / 128) / 3 := by
  have h1024 : Real.log 1024 = 10 * Real.log 2 := by
    rw [show (1024 : ℝ) = 2 ^ 10 by norm_num, Real.log_pow]
    norm_num
  have h1000 : Real.log 1000 = 3 * Real.log 10 := by
    rw [show (1000 : ℝ) = 10 ^ 3 by norm_num, Real.log_pow]
    norm_num
  have hdiv : Real.log ((1024 : ℝ) / 1000) = Real.log 1024 - Real.log 1000 :=
    Real.log_div (by norm_num) (by norm_num)
  obtain ⟨hlo, hhi⟩ := log_ratio_bounds
  rw [hdiv, h1024, h1000] at hlo hhi
  constructor <;> linarith

lemma mSize_1000 : mSize 1000 (1 / 10) = 4793 := by
  have ha := Real.log_two_gt_d9
  have hb := Real.log_two_lt_d9
  obtain ⟨h10lo, h10hi⟩ := log_ten_bounds
  have hlog : Real.log ((1 : ℝ) / 10) = -Real.log 10 := by
    rw [one_div, Real.log_inv]
  have hl2pos : (0 : ℝ) < Real.log 2 := by linarith
  have hsqpos : (0 : ℝ) < (Real.log 2) ^ 2 := by positivity
  unfold mSize
  rw [Int.ceil_eq_iff]
  push_cast
  rw [hlog]
  constructor
  · rw [lt_div_iff₀ hsqpos]
    nlinarith [sq_nonneg (Real.log 2 - 0.6931471808)]
  · rw [div_le_iff₀ hsqpos]
    nlinarith [sq_nonneg (Real.log 2 - 0.6931471803)]

lemma kSize_1000 : kSize 1000 (1 / 10) = 3 := by
  have ha := Real.log_two_gt_d9
  have hb := Real.log_two_lt_d9
  unfold kSize
  rw [mSize_1000, round_eq, Int.floor_eq_iff]
  push_cast
  constructor <;> nlinarith

end VehicleBloom

namespace VehicleBloom

lemma FilterState.ext' {s t : FilterState} (hm : s.m = t.m) (hk : s.k = t.k)
    (hb : s.bits = t.bits) : s = t := by
  cases s; cases t; simp_all

lemma contains_allZero (m k : Nat) (hk : 0 < k) (r : Record) :
    contains ⟨m, k, List.replicate m false⟩ r = false := by
  unfold contains
  rw [List.all_eq_false]
  refine ⟨h1 r % m, ?_, ?_⟩
  · simp only [positions, List.mem_map]
    exact ⟨0, by simpa using hk, by simp⟩
  · simp only [List.getD_eq_getElem?_getD, List.getElem?_replicate]
    split <;> simp

lemma any_replicate_succ {α : Type} (n : Nat) (a : α) (f : α → Bool) :
    (List.replicate (n + 1) a).any f = f a := by
  induction n with
  | zero => simp
  | succ n ih => rw [List.replicate_succ, List.any_cons, ih, Bool.or_self]

lemma any_perm {α : Type} {rs rs' : List α} (h : rs.Perm rs') (f : α → Bool) :
    rs.any f = rs'.any f := by
  rw [List.any_eq, List.any_eq]
  congr 1
  exact propext ⟨fun ⟨x, hx, hfx⟩ => ⟨x, h.mem_iff.mp hx, hfx⟩,
    fun ⟨x, hx, hfx⟩ => ⟨x, h.mem_iff.mpr hx, hfx⟩⟩

lemma length_sampleVehicles (draw : Nat → Nat) : (sampleVehicles draw).length = 1000 := by
  simp [sampleVehicles]

lemma lifespanStore_ne_empty (draw : Nat → Nat) {store : List Record} (h : store ≠ []) :
    lifespanStore draw store = store := by
  unfold lifespanStore
  rw [if_neg]
  simpa using h

end VehicleBloom

namespace VehicleBloom

lemma lifespanStore_nil (draw : Nat → Nat) :
    lifespanStore draw [] = sampleVehicles draw := rfl

lemma new_m : (new 1000 (1 / 10)).m = 4793 := by
  show (mSize 1000 (1 / 10)).toNat = 4793
  rw [mSize_1000]
  rfl

lemma new_k : (new 1000 (1 / 10)).k = 3 := by
  show (kSize 1000 (1 / 10)).toNat = 3
  rw [kSize_1000]
  rfl

lemma new_len : (new 1000 (1 / 10)).bits.length = (new 1000 (1 / 10)).m := by
  simp [new]

/-- C1: no false negatives — every vehicle number loaded from the record store into
the Bloom filter during `lifespan` is subsequently reported present: `contains`
returns `true` and `check_vehicle` answers status `"yes"`, on every subsequent
call against that same published state. -/
theorem C1_no_false_negatives (draw : Nat → Nat) (store : List Record) (v : String)
    (hv : encodeUtf8 v ∈ lifespanStore draw store) :
    contains (lifespanBloom draw store) (encodeUtf8 v) = true ∧
      check_vehicle (lifespanBloom draw store) v = ⟨v, "yes"⟩ := by
  have hc : contains (lifespanBloom draw store) (encodeUtf8 v) = true :=
    contains_buildFrom_of_mem (new 1000 (1 / 10)) new_len (by rw [new_m]; norm_num) hv
  exact ⟨hc, by simp [check_vehicle, hc]⟩

/-- Witness for C1 at a concrete store and query. -/
theorem C1_witness :
    check_vehicle (lifespanBloom (fun _ => 0) [encodeUtf8 "KA-07"]) "KA-07" =
      ⟨"KA-07", "yes"⟩ :=
  (C1_no_false_negatives (fun _ => 0) [encodeUtf8 "KA-07"] "KA-07"
    (by simp [lifespanStore])).2

/-- C2: insertion always succeeds — `insert` and the build loop are total and
preserve the filter's `m`, `k` and bit-array length for a record sequence of any
length (no structural capacity ceiling: exceeding `n` is never a hard failure),
and the `lifespan` build yields a well-formed filter for any store contents. -/
theorem C2_insert_always_succeeds (s : FilterState) (rs : List Record)
    (draw : Nat → Nat) (store : List Record) :
    (buildFrom s rs).m = s.m ∧ (buildFrom s rs).k = s.k ∧
      (buildFrom s rs).bits.length = s.bits.length ∧
      (lifespanBloom draw store).bits.length = (lifespanBloom draw store).m :=
  ⟨m_buildFrom s rs, k_buildFrom s rs, length_buildFrom s rs, by
    rw [lifespanBloom, length_buildFrom, m_buildFrom, new_len]⟩

/-- C3: sizing correctness — for capacity `n = 1000` and target error rate
`p = 0.1`, the bit-array size satisfies `m = ceil(-(n * ln p) / (ln 2)^2) = 4793`
and the probe count satisfies `k = round((m/n) * ln 2) = 3`. -/
theorem C3_sizing :
    mSize 1000 (1 / 10) = 4793 ∧ kSize 1000 (1 / 10) = 3 ∧
      (new 1000 (1 / 10)).m = 4793 ∧ (new 1000 (1 / 10)).k = 3 :=
  ⟨mSize_1000, kSize_1000, new_m, new_k⟩

/-- C4 is false as stated: when the store's collection is empty at build time,
`lifespan` first seeds 1000 sample vehicles and builds the filter from them, so
`contains` returns `true` (not `false`) when queried with a seeded record. -/
theorem C4_counterexample :
    contains (lifespanBloom (fun _ => 0) []) (sampleVehicle (fun _ => 0) 0) = true := by
  have hmem : sampleVehicle (fun _ => 0) 0 ∈ lifespanStore (fun _ => 0) [] := by
    rw [lifespanStore_nil]
    exact List.mem_map.mpr ⟨0, List.mem_range.mpr (by norm_num), rfl⟩
  exact contains_buildFrom_of_mem (new 1000 (1 / 10)) new_len (by rw [new_m]; norm_num) hmem

/-- C4 (amended): building from an empty record sequence yields a filter state in
which no bit is set, on which `contains` returns `false` for every record; in
`lifespan`, however, an empty collection is seeded before the build, so the build
pass never receives an empty sequence. -/
theorem C4_empty_sequence_build (r : Record) :
    (buildFrom (new 1000 (1 / 10)) []).bits = List.replicate 4793 false ∧
      contains (buildFrom (new 1000 (1 / 10)) []) r = false := by
  have hnew : new 1000 (1 / 10) = ⟨4793, 3, List.replicate 4793 false⟩ := by
    unfold new
    rw [mSize_1000, kSize_1000]
    rfl
  rw [show buildFrom (new 1000 (1 / 10)) [] = new 1000 (1 / 10) from rfl, hnew]
  exact ⟨rfl, contains_allZero 4793 3 (by norm_num) r⟩

/-- C5 is false as stated: running `lifespan` against an empty record store
changes the store — the seeding block (`collection.insert_many`) writes sample
vehicles, so the store no longer equals its prior (empty) contents. -/
theorem C5_counterexample :
    lifespanStore (fun _ => 0) [] ≠ [] := by
  intro h
  have hl := congrArg List.length h
  rw [lifespanStore_nil, length_sampleVehicles] at hl
  simp at hl

/-- C5 (amended): `lifespan` leaves the record store unchanged whenever the store
is non-empty at build time; when the store is empty it writes exactly 1000 sample
vehicle records into it before building. -/
theorem C5_store_effect (draw : Nat → Nat) (store : List Record) :
    (store ≠ [] → lifespanStore draw store = store) ∧
      (store = [] → (lifespanStore draw store).length = 1000) := by
  constructor
  · exact lifespanStore_ne_empty draw
  · intro h
    rw [h, lifespanStore_nil, length_sampleVehicles]

/-- Witness for C5 (amended) at a concrete non-empty store. -/
theorem C5_witness :
    lifespanStore (fun _ => 0) [[65]] = [[65]] :=
  (C5_store_effect (fun _ => 0) [[65]]).1 (by decide)

/-- C6: idempotent insertion — for every filter state and record, inserting the
record once and then any number of additional times yields a state (bit array
included) identical to inserting it exactly once. -/
theorem C6_idempotent_insertion (s : FilterState) (r : Record) (j : Nat) :
    buildFrom s (List.replicate (j + 1) r) = insert s r := by
  refine FilterState.ext' ((m_buildFrom s _).trans (m_insert s r).symm)
    ((k_buildFrom s _).trans (k_insert s r).symm) (List.ext_getElem? fun i => ?_)
  rw [getElem?_buildFrom, getElem?_insert, any_replicate_succ]

/-- C7: build order independence — building from record sequences that are
permutations of each other yields identical filter states (bit arrays): insertion
is commutative, so the order in which the store returns records is irrelevant. -/
theorem C7_order_independence (s : FilterState) (rs rs' : List Record)
    (h : rs.Perm rs') : buildFrom s rs = buildFrom s rs' := by
  refine FilterState.ext' ((m_buildFrom s rs).trans (m_buildFrom s rs').symm)
    ((k_buildFrom s rs).trans (k_buildFrom s rs').symm) (List.ext_getElem? fun i => ?_)
  rw [getElem?_buildFrom, getElem?_buildFrom, any_perm h]

/-- Witness for C7 on a concrete pair of permuted record sequences. -/
theorem C7_witness :
    buildFrom ⟨3, 2, [false, false, false]⟩ [[1], [2]] =
      buildFrom ⟨3, 2, [false, false, false]⟩ [[2], [1]] :=
  C7_order_independence _ _ _ (by decide)

/-- C8: determinism — the published filter and every `check_vehicle` answer are
independent of the process's random stream: two process runs over the same
non-empty store build equal filters (the hash scheme takes no per-process seed)
and return the same status for the same input against that same state. -/
theorem C8_determinism (g₁ g₂ : Nat → Nat) (store : List Record) (h : store ≠ [])
    (v : String) :
    lifespanBloom g₁ store = lifespanBloom g₂ store ∧
      check_vehicle (lifespanBloom g₁ store) v = check_vehicle (lifespanBloom g₂ store) v := by
  have hb : lifespanBloom g₁ store = lifespanBloom g₂ store := by
    unfold lifespanBloom
    rw [lifespanStore_ne_empty g₁ h, lifespanStore_ne_empty g₂ h]
  exact ⟨hb, by rw [hb]⟩

/-- Witness for C8 at two distinct random streams over a concrete store. -/
theorem C8_witness :
    check_vehicle (lifespanBloom (fun _ => 0) [[65]]) "A" =
      check_vehicle (lifespanBloom (fun _ => 1) [[65]]) "A" :=
  (C8_determinism (fun _ => 0) (fun _ => 1) [[65]] (by decide) "A").2

/-- C9: response shape — `check_vehicle` always echoes the request's
`vehicle_to_check` string unchanged, and its `status` field is exactly `"yes"` or
exactly `"no"`; no other response shape is possible. -/
theorem C9_response_shape (s : FilterState) (v : String) :
    (check_vehicle s v).vehicle_to_check = v ∧
      ((check_vehicle s v).status = "yes" ∨ (check_vehicle s v).status = "no") := by
  unfold check_vehicle
  split <;> simp

/-- C10: fixed parameters — `lifespan` always constructs the filter with capacity
`n = 1000` and error rate `p = 0.1`: whatever the store holds, the built filter
has the sizes of `new 1000 (1/10)`, namely `m = 4793` and `k = 3`. -/
theorem C10_fixed_parameters (draw : Nat → Nat) (store : List Record) :
    (lifespanBloom draw store).m = (new 1000 (1 / 10)).m ∧
      (lifespanBloom draw store).k = (new 1000 (1 / 10)).k ∧
      (lifespanBloom draw store).m = 4793 ∧ (lifespanBloom draw store).k = 3 :=
  ⟨m_buildFrom _ _, k_buildFrom _ _, (m_buildFrom _ _).trans new_m,
    (k_buildFrom _ _).trans new_k⟩

end VehicleBloom
